import Mathlib

/-!
Verification of the `ultra_rest_client` Python client library
(`src/ultra_rest_client/ultra_rest_client.py`) against its natural-language
specification.

The domain client is a facade that turns typed arguments into HTTP request
descriptors (method, path, JSON body, query parameters) and hands them to a
transport (`RestApiConnection`, whose source is not part of this repository
snapshot; where a claim depends on it, the transport is modelled from the
spec and marked as such).  We embed the request-building functions as pure
Lean functions over a `Json` value type mirroring Python's JSON-serialisable
dictionaries/lists/strings/numbers, and embed the stateful parts
(constructor side effects, the `export_zone` polling loop, the
refresh-and-retry transport) as functions that also return an explicit trace
of the externally visible calls they make, in order.
-/

/-- JSON-serialisable Python values, as passed to `json.dumps` or sent as the
`json=` argument of the HTTP layer.  Objects keep insertion order, as Python
dicts do. -/
inductive Json where
  | null
  | bool (b : Bool)
  | num (n : Int)
  | str (s : String)
  | arr (xs : List Json)
  | obj (fields : List (String × Json))
deriving Repr

/-- Python truthiness of a JSON value (`if x:`): `None`, `False`, `0`, `""`,
`[]` and `{}` are falsy, everything else truthy. -/
def jsonTruthy : Json → Bool
  | .null => false
  | .bool b => b
  | .num n => n != 0
  | .str s => !s.isEmpty
  | .arr xs => !xs.isEmpty
  | .obj fs => !fs.isEmpty

/-- Python `dict.get`: `none` when the key is absent. -/
def pyGet (j : Json) (k : String) : Option Json :=
  match j with
  | .obj fs => List.lookup k fs
  | _ => none

/-- Escape one character the way `json.dumps` does for the characters the
client ever sends (quote, backslash and the common control characters). -/
def escapeChar (c : Char) : String :=
  if c = '"' then "\\\""
  else if c = '\\' then "\\\\"
  else if c = '\n' then "\\n"
  else if c = '\t' then "\\t"
  else if c = '\r' then "\\r"
  else String.singleton c

def escapeString (s : String) : String :=
  String.join (s.toList.map escapeChar)

/-- Model of `json.dumps` with its default separators `", "` and `": "`. -/
def jsonDumps : Json → String
  | .null => "null"
  | .bool b => if b then "true" else "false"
  | .num n => toString n
  | .str s => "\"" ++ escapeString s ++ "\""
  | .arr xs => "[" ++ String.intercalate ", " (xs.attach.map (fun x => jsonDumps x.1)) ++ "]"
  | .obj fs =>
      "\x7b" ++
      String.intercalate ", "
        (fs.attach.map (fun f => "\"" ++ escapeString f.1.1 ++ "\": " ++ jsonDumps f.1.2)) ++
      "\x7d"
decreasing_by
  all_goals simp_wf
  · have := List.sizeOf_lt_of_mem x.2
    omega
  · obtain ⟨⟨k, v⟩, hm⟩ := f
    have h1 := List.sizeOf_lt_of_mem hm
    have h2 : sizeOf (k, v) = 1 + sizeOf k + sizeOf v := rfl
    simp only [h2] at h1
    dsimp only
    omega

/-- HTTP verbs exposed by the transport. -/
inductive Method where
  | get
  | post
  | put
  | patch
  | delete
deriving Repr, DecidableEq

/-- A request descriptor as handed to the transport: verb, path, optional
JSON body (the Python value passed to `json.dumps` / the `json=` argument),
optional query parameters. -/
structure Request where
  method : Method
  path : String
  body : Option Json := none
  params : Option (List (String × String)) := none
deriving Repr

/-- Model of `RestApiClient.create_primary_zone`: builds the primary-zone creation
payload and POSTs it to `/v1/zones`. -/
def create_primary_zone (account_name zone_name : String) : Request :=
  let zone_data := Json.obj [
    ("properties", Json.obj [
      ("name", Json.str zone_name),
      ("accountName", Json.str account_name),
      ("type", Json.str "PRIMARY")]),
    ("primaryCreateInfo", Json.obj [
      ("forceImport", Json.bool true),
      ("createType", Json.str "NEW")])]
  { method := Method.post, path := "/v1/zones", body := some zone_data }

/-- Python's `isinstance(rdata, list)` wrapping in `create_rrset` /
`edit_rrset` / `edit_rrset_rdata`: a non-list value becomes a one-element
list, a list is kept as is. -/
def wrapRdata : Json → Json
  | .arr xs => .arr xs
  | v => .arr [v]

/-- Model of `RestApiClient.create_rrset`: POST
`/v1/zones/{zone_name}/rrsets/{rtype}/{owner_name}` with body
`{"ttl": ttl, "rdata": rdata}` after list-wrapping `rdata`. -/
def create_rrset (zone_name rtype owner_name : String) (ttl : Int) (rdata : Json) : Request :=
  let rdata' := wrapRdata rdata
  let rrset := Json.obj [("ttl", Json.num ttl), ("rdata", rdata')]
  { method := Method.post,
    path := "/v1/zones/" ++ zone_name ++ "/rrsets/" ++ rtype ++ "/" ++ owner_name,
    body := some rrset }

/-- Model of `RestApiClient.edit_rrset_rdata`: body `{"rdata": rdata}` after
list-wrapping; if `profile` is truthy the body also carries `"profile"` and
the verb becomes PUT (the source selects the verb name dynamically with
`getattr`), otherwise the verb is PATCH.  `none` models the Python default
`profile=None`. -/
def edit_rrset_rdata (zone_name rtype owner_name : String) (rdata : Json)
    (profile : Option Json) : Request :=
  let rdata' := wrapRdata rdata
  let truthy := match profile with
    | none => false
    | some p => jsonTruthy p
  let rrset := match profile with
    | some p => if jsonTruthy p
        then Json.obj [("rdata", rdata'), ("profile", p)]
        else Json.obj [("rdata", rdata')]
    | none => Json.obj [("rdata", rdata')]
  let method := if truthy then Method.put else Method.patch
  { method := method,
    path := "/v1/zones/" ++ zone_name ++ "/rrsets/" ++ rtype ++ "/" ++ owner_name,
    body := some rrset }

/-- The dict comprehension in `RestApiClient.edit_secondary_name_server`:
`{f'nameServerIp{i+1}': {'ip': ip} for i, ip in
enumerate([primary, backup, second_backup]) if ip is not None}`. -/
def nameServerIpList (primary backup second_backup : Option String) : List (String × Json) :=
  ([primary, backup, second_backup].enum).filterMap
    (fun p => p.2.map (fun ip => ("nameServerIp" ++ toString (p.1 + 1), Json.obj [("ip", Json.str ip)])))

/-- Model of `RestApiClient.edit_secondary_name_server`: PATCH `/v1/zones/{zone_name}`
with the `secondaryCreateInfo` wrapper around the name-server dict. -/
def edit_secondary_name_server (zone_name : String)
    (primary backup second_backup : Option String) : Request :=
  let zone_data := Json.obj [
    ("secondaryCreateInfo", Json.obj [
      ("primaryNameServers", Json.obj [
        ("nameServerIpList", Json.obj (nameServerIpList primary backup second_backup))])])]
  { method := Method.patch, path := "/v1/zones/" ++ zone_name, body := some zone_data }

/-- Query-parameter dictionaries: insertion-ordered string keys; values are
modelled by the string form in which they are sent on the wire. -/
abbrev ParamDict := List (String × String)

/-- Python dict item assignment `d[k] = v`: replaces the value in place if
the key is present (keeping its position), otherwise appends the pair. -/
def dictSet (d : ParamDict) (k v : String) : ParamDict :=
  match d with
  | [] => [(k, v)]
  | (k', v') :: rest => if k' = k then (k', v) :: rest else (k', v') :: dictSet rest k v

/-- The search string `' '.join(f"{k}:{v}" for k, v in q.items())`. -/
def joinQ (q : List (String × String)) : String :=
  String.intercalate " " (q.map (fun kv => kv.1 ++ ":" ++ kv.2))

/-- Module-level `build_params(q, args)`: copy `args`, and if `q` is truthy
(not `None` and non-empty) set `params['q']` to the joined search string.
`none` models the Python `q=None` default. -/
def build_params (q : Option (List (String × String))) (args : ParamDict) : ParamDict :=
  let params := args
  match q with
  | none => params
  | some qd => if qd.isEmpty then params else dictSet params "q" (joinQ qd)

/-- Model of `RestApiClient.get_zones`: GET `/v1/zones` with `build_params(q, kwargs)`. -/
def get_zones (q : Option (List (String × String))) (kwargs : ParamDict) : Request :=
  { method := Method.get, path := "/v1/zones", params := some (build_params q kwargs) }

/-- Model of `RestApiClient.get_zones_of_account`: GET `/v1/accounts/{account_name}/zones`
with `build_params(q, kwargs)`. -/
def get_zones_of_account (account_name : String) (q : Option (List (String × String)))
    (kwargs : ParamDict) : Request :=
  { method := Method.get, path := "/v1/accounts/" ++ account_name ++ "/zones",
    params := some (build_params q kwargs) }

/-- Model of `RestApiClient.get_zones_v3`: GET `/v3/zones` with `build_params(q, kwargs)`. -/
def get_zones_v3 (q : Option (List (String × String))) (kwargs : ParamDict) : Request :=
  { method := Method.get, path := "/v3/zones", params := some (build_params q kwargs) }

/-- Model of `RestApiClient.get_rrsets`: GET `/v1/zones/{zone_name}/rrsets` with
`build_params(q, kwargs)`. -/
def get_rrsets (zone_name : String) (q : Option (List (String × String)))
    (kwargs : ParamDict) : Request :=
  { method := Method.get, path := "/v1/zones/" ++ zone_name ++ "/rrsets",
    params := some (build_params q kwargs) }

/-- Model of `RestApiClient.get_rrsets_by_type`: GET `/v1/zones/{zone_name}/rrsets/{rtype}`
with `build_params(q, kwargs)`. -/
def get_rrsets_by_type (zone_name rtype : String) (q : Option (List (String × String)))
    (kwargs : ParamDict) : Request :=
  { method := Method.get, path := "/v1/zones/" ++ zone_name ++ "/rrsets/" ++ rtype,
    params := some (build_params q kwargs) }

/-- Model of `RestApiClient.get_rrsets_by_type_owner`: GET
`/v1/zones/{zone_name}/rrsets/{rtype}/{owner_name}` with `build_params(q, kwargs)`. -/
def get_rrsets_by_type_owner (zone_name rtype owner_name : String)
    (q : Option (List (String × String))) (kwargs : ParamDict) : Request :=
  { method := Method.get,
    path := "/v1/zones/" ++ zone_name ++ "/rrsets/" ++ rtype ++ "/" ++ owner_name,
    params := some (build_params q kwargs) }

/-!
A small heap model of Python dictionaries, to state that `build_params`
mutates neither of its arguments: dicts live in a store and are passed by
reference; `args.copy()` allocates a fresh dict and `params['q'] = ...`
writes through the reference of the copy only.
-/

/-- A store of dictionaries; a dict reference is an index into the heap. -/
structure Store where
  heap : List ParamDict
deriving Repr

def allocDict (s : Store) (d : ParamDict) : Store × Nat :=
  ({ heap := s.heap ++ [d] }, s.heap.length)

def readDict (s : Store) (r : Nat) : ParamDict :=
  s.heap.getD r []

def writeDict (s : Store) (r : Nat) (d : ParamDict) : Store :=
  { heap := s.heap.set r d }

/-- Model of `build_params` over the heap model: `params = args.copy()` allocates a
fresh dict initialised with the current contents of `args`; the `q` entry is
then written through the fresh reference only.  Returns the updated store
and the reference to the result dict. -/
def build_params_st (s : Store) (qRef : Option Nat) (argsRef : Nat) :
    Store × Nat :=
  let alloc := allocDict s (readDict s argsRef)
  let s1 := alloc.1
  let pRef := alloc.2
  match qRef with
  | none => (s1, pRef)
  | some qr =>
      if (readDict s1 qr).isEmpty then (s1, pRef)
      else (writeDict s1 pRef (dictSet (readDict s1 pRef) "q" (joinQ (readDict s1 qr))), pRef)

/-!
The `export_zone` polling loop.  The remote side is an oracle `TaskEnv`
giving the response of the initial export POST, the `'code'` field of the
`k`-th task-status poll, and the task-result body.  The loop is embedded
with explicit fuel; the function also returns the ordered trace of the
externally visible actions it performs (HTTP calls and `time.sleep`).
-/

/-- An externally visible action of the client: an HTTP call handed to the
transport, or a `time.sleep`. -/
inductive WireAct where
  | get (path : String)
  | post (path : String) (body : Json)
  | delete (path : String)
  | sleep (seconds : Nat)
deriving Repr

/-- The remote environment seen by `export_zone`.  `taskStatus k` is the
`'code'` field of the response to the `k`-th `GET /v1/tasks/{id}` poll
(0-based); `deleteResponse` is the body answering `DELETE /v1/tasks/{id}`. -/
structure TaskEnv where
  exportResponse : Json
  taskStatus : Nat → String
  taskResult : Json
  deleteResponse : Json

/-- The `while True` loop of `export_zone`, polling from attempt `k` with
the given fuel: GET the task status; break when the code is not
`IN_PROCESS`, otherwise `time.sleep(1)` and poll again.  Returns the index
of the poll that broke the loop (or `none` when fuel ran out) together with
the trace of actions. -/
def pollLoop (env : TaskEnv) (tid : String) (k : Nat) : Nat → Option Nat × List WireAct
  | 0 => (none, [])
  | fuel + 1 =>
      let c := WireAct.get ("/v1/tasks/" ++ tid)
      if env.taskStatus k ≠ "IN_PROCESS" then (some k, [c])
      else
        let rest := pollLoop env tid (k + 1) fuel
        (rest.1, c :: WireAct.sleep 1 :: rest.2)

/-- Python `str()` of an optional JSON value, as interpolated into an
f-string: `None` for a missing value, the raw characters for a string. -/
def pyStrOpt : Option Json → String
  | none => "None"
  | some (.str s) => s
  | some (.bool true) => "True"
  | some (.bool false) => "False"
  | some (.num n) => toString n
  | some .null => "None"
  | some v => jsonDumps v

/-- Model of `RestApiClient.export_zone`: POST `/v3/zones/export` (the body passed to
the transport is the already-`json.dumps`-serialised string `zonejson`),
read `task_id` from the response with `.get`, poll `GET /v1/tasks/{id}`
until the code leaves `IN_PROCESS`, then GET the result, DELETE the task
record (via `clear_task`) and return the result body.  The first component
is `none` when the fuel was exhausted before the loop broke. -/
def export_zone (env : TaskEnv) (zone_name : String) (fuel : Nat) :
    Option Json × List WireAct :=
  let zonejson := jsonDumps (Json.obj [("zoneNames", Json.arr [Json.str zone_name])])
  let exportCall := WireAct.post "/v3/zones/export" (Json.str zonejson)
  let task_id := pyStrOpt (pyGet env.exportResponse "task_id")
  let loop := pollLoop env task_id 0 fuel
  match loop.1 with
  | none => (none, exportCall :: loop.2)
  | some _ =>
      (some env.taskResult,
        exportCall :: loop.2 ++
          [WireAct.get ("/v1/tasks/" ++ task_id ++ "/result"),
           WireAct.delete ("/v1/tasks/" ++ task_id)])

/-!
The `RestApiClient` constructor.  Its externally visible effects, in order:
creating the `RestApiConnection`, calling `auth` on it, printing the
missing-refresh-token warning.  A raised exception aborts the trace at the
point it is raised.
-/

/-- An externally visible effect of `RestApiClient.__init__`. -/
inductive InitEvent where
  | connCreated
  | authCalled (user pwd : String)
  | warned
deriving Repr, DecidableEq

/-- The credential attributes set by the constructor (`access_token` /
`refresh_token` are only assigned on the `use_token` branch). -/
structure ClientState where
  access_token : Option String := none
  refresh_token : Option String := none
deriving Repr, DecidableEq

/-- Python falsiness of an optional string (`if not pr:`): `None` and the
empty string are falsy. -/
def strOptFalsy : Option String → Bool
  | none => true
  | some s => s.isEmpty

/-- Model of `RestApiClient.__init__(bu, pr, use_token)`: with `use_token` the tokens
are stored, the connection is created, and a warning is printed when no
refresh token was given; without it, a missing/empty password raises
`ValueError("Password is required when providing a username.")` before the
connection is created, otherwise the connection is created and `auth(bu,
pr)` is called.  Returns the ordered effect trace and either the raised
error message or the constructed state. -/
def RestApiClient_init (bu : String) (pr : Option String) (use_token : Bool) :
    List InitEvent × Except String ClientState :=
  if use_token then
    let events := [InitEvent.connCreated] ++ (if strOptFalsy pr then [InitEvent.warned] else [])
    (events, Except.ok { access_token := some bu, refresh_token := pr })
  else
    match pr with
    | none => ([], Except.error "Password is required when providing a username.")
    | some p =>
        if p.isEmpty then ([], Except.error "Password is required when providing a username.")
        else ([InitEvent.connCreated, InitEvent.authCalled bu p], Except.ok {})

/-!
The authenticated transport (`RestApiConnection.request`).  The transport's
source file is not part of this repository snapshot, so it is modelled from
the spec (section 4.1): attach the bearer token and send; on a 401 with a
refresh token available, exchange the refresh token for a new access token,
update the stored credentials and retry the original request exactly once;
if the refresh fails or no refresh token is available, surface `AuthError`;
any other non-2xx becomes `ApiError`.
-/

/-- The spec's error taxonomy for a transport request's outcome. -/
inductive Outcome where
  | success (status : Nat)
  | authError
  | apiError (status : Nat)
deriving Repr, DecidableEq

/-- One wire call made by the transport: the caller's original request sent
with `Authorization: Bearer <token>`, or the refresh-token exchange against
the token endpoint. -/
inductive TransportCall where
  | original (token : String)
  | refreshExchange (refreshTok : String)
deriving Repr, DecidableEq

/-- The transport's stored credential state. -/
structure ConnState where
  access_token : String
  refresh_token : Option String
deriving Repr, DecidableEq

/-- The remote side seen by one `request` call: the HTTP status answering
the first attempt, the outcome of a refresh exchange (`none` = the refresh
call fails, e.g. the refresh token is itself expired), and the status
answering the retried attempt. -/
structure TransportEnv where
  firstStatus : Nat
  refreshOutcome : Option String
  retryStatus : Nat

/-- Modelled from the spec: how a response status is surfaced (section 4.1
steps 4-6) — 2xx succeeds with the parsed body, 401 is surfaced as
`AuthError`, any other status as `ApiError` carrying the status. -/
def classifyStatus (s : Nat) : Outcome :=
  if 200 ≤ s ∧ s < 300 then Outcome.success s
  else if s = 401 then Outcome.authError
  else Outcome.apiError s

/-- Modelled from the spec: `RestApiConnection.request` (section 4.1, whose
source file `connection.py` is not in this snapshot).  Sends the original
request with the stored access token; if the response is a 401 and a
refresh token is present, performs the refresh exchange — on success it
updates the stored access token and retries the original request exactly
once, on failure it surfaces `AuthError` with no retry; a 401 without a
refresh token is surfaced as `AuthError`.  Returns the outcome, the updated
credential state, and the ordered trace of wire calls. -/
def transport_request (env : TransportEnv) (st : ConnState) :
    Outcome × ConnState × List TransportCall :=
  if env.firstStatus = 401 then
    match st.refresh_token with
    | none => (Outcome.authError, st, [TransportCall.original st.access_token])
    | some rt =>
        match env.refreshOutcome with
        | none =>
            (Outcome.authError, st,
              [TransportCall.original st.access_token, TransportCall.refreshExchange rt])
        | some newTok =>
            (classifyStatus env.retryStatus, { st with access_token := newTok },
              [TransportCall.original st.access_token, TransportCall.refreshExchange rt,
               TransportCall.original newTok])
  else (classifyStatus env.firstStatus, st, [TransportCall.original st.access_token])

/-- Expected trace of a polling phase whose `n` first polls answered
`IN_PROCESS` and whose final poll broke the loop: `n` times (GET, sleep 1),
then the final GET. -/
def pollTraceExpected (tid : String) : Nat → List WireAct
  | 0 => [WireAct.get ("/v1/tasks/" ++ tid)]
  | n + 1 => WireAct.get ("/v1/tasks/" ++ tid) :: WireAct.sleep 1 :: pollTraceExpected tid n

/-!
Claim theorems.
-/

/-- C5: every call `create_primary_zone(account_name, zone_name)` issues
`POST /v1/zones` with JSON body
`{"properties": {"name": zone_name, "accountName": account_name,
"type": "PRIMARY"}, "primaryCreateInfo": {"forceImport": true,
"createType": "NEW"}}`; in particular for zone `example.com.` under account
`acct1`. -/
theorem create_primary_zone_request :
    (∀ account_name zone_name,
      create_primary_zone account_name zone_name =
        { method := Method.post, path := "/v1/zones",
          body := some (Json.obj [
            ("properties", Json.obj [
              ("name", Json.str zone_name),
              ("accountName", Json.str account_name),
              ("type", Json.str "PRIMARY")]),
            ("primaryCreateInfo", Json.obj [
              ("forceImport", Json.bool true),
              ("createType", Json.str "NEW")])]) }) ∧
    create_primary_zone "acct1" "example.com." =
      { method := Method.post, path := "/v1/zones",
        body := some (Json.obj [
          ("properties", Json.obj [
            ("name", Json.str "example.com."),
            ("accountName", Json.str "acct1"),
            ("type", Json.str "PRIMARY")]),
          ("primaryCreateInfo", Json.obj [
            ("forceImport", Json.bool true),
            ("createType", Json.str "NEW")])]) } := by
  exact ⟨fun _ _ => rfl, rfl⟩

/-- C6: every call `create_rrset(zone_name, rtype, owner_name, ttl, rdata)`
issues `POST /v1/zones/{zone_name}/rrsets/{rtype}/{owner_name}` with body
`{"ttl": ttl, "rdata": rdata'}`, where a list `rdata` is kept as is and a
non-list `rdata` is wrapped into a one-element list; in particular
`create_rrset("z.com", "A", "www", 300, "1.2.3.4")` issues
`POST /v1/zones/z.com/rrsets/A/www` with body
`{"ttl": 300, "rdata": ["1.2.3.4"]}`. -/
theorem create_rrset_request :
    (∀ zone_name rtype owner_name ttl (xs : List Json),
      create_rrset zone_name rtype owner_name ttl (Json.arr xs) =
        { method := Method.post,
          path := "/v1/zones/" ++ zone_name ++ "/rrsets/" ++ rtype ++ "/" ++ owner_name,
          body := some (Json.obj [("ttl", Json.num ttl), ("rdata", Json.arr xs)]) }) ∧
    (∀ zone_name rtype owner_name ttl (v : Json), (∀ xs, v ≠ Json.arr xs) →
      create_rrset zone_name rtype owner_name ttl v =
        { method := Method.post,
          path := "/v1/zones/" ++ zone_name ++ "/rrsets/" ++ rtype ++ "/" ++ owner_name,
          body := some (Json.obj [("ttl", Json.num ttl), ("rdata", Json.arr [v])]) }) ∧
    create_rrset "z.com" "A" "www" 300 (Json.str "1.2.3.4") =
      { method := Method.post, path := "/v1/zones/z.com/rrsets/A/www",
        body := some (Json.obj [("ttl", Json.num 300),
          ("rdata", Json.arr [Json.str "1.2.3.4"])]) } := by
  refine ⟨fun _ _ _ _ _ => rfl, ?_, rfl⟩
  intro zone_name rtype owner_name ttl v h
  cases v with
  | arr xs => exact absurd rfl (h xs)
  | null => rfl
  | bool b => rfl
  | num n => rfl
  | str s => rfl
  | obj fs => rfl

/-- Closed instance of `create_rrset_request`, discharging its non-list
hypothesis at the scenario input `"1.2.3.4"`. -/
theorem create_rrset_request_witness :
    create_rrset "z.com" "A" "www" 300 (Json.str "1.2.3.4") =
      { method := Method.post, path := "/v1/zones/z.com/rrsets/A/www",
        body := some (Json.obj [("ttl", Json.num 300),
          ("rdata", Json.arr [Json.str "1.2.3.4"])]) } :=
  create_rrset_request.2.1 "z.com" "A" "www" 300 (Json.str "1.2.3.4")
    (fun _ h => Json.noConfusion h)

/-- C7: `edit_rrset_rdata` selects the verb from the optional `profile`
argument: with a falsy profile (absent, i.e. the Python default `None`, or
a falsy value) it issues PATCH on
`/v1/zones/{zone_name}/rrsets/{rtype}/{owner_name}` with body
`{"rdata": rdata'}`; with a truthy profile it issues PUT on the same path
with body `{"rdata": rdata', "profile": profile}`; no verb other than PATCH
or PUT is ever used. -/
theorem edit_rrset_rdata_request :
    (∀ zone_name rtype owner_name rdata,
      edit_rrset_rdata zone_name rtype owner_name rdata none =
        { method := Method.patch,
          path := "/v1/zones/" ++ zone_name ++ "/rrsets/" ++ rtype ++ "/" ++ owner_name,
          body := some (Json.obj [("rdata", wrapRdata rdata)]) }) ∧
    (∀ zone_name rtype owner_name rdata p, jsonTruthy p = false →
      edit_rrset_rdata zone_name rtype owner_name rdata (some p) =
        { method := Method.patch,
          path := "/v1/zones/" ++ zone_name ++ "/rrsets/" ++ rtype ++ "/" ++ owner_name,
          body := some (Json.obj [("rdata", wrapRdata rdata)]) }) ∧
    (∀ zone_name rtype owner_name rdata p, jsonTruthy p = true →
      edit_rrset_rdata zone_name rtype owner_name rdata (some p) =
        { method := Method.put,
          path := "/v1/zones/" ++ zone_name ++ "/rrsets/" ++ rtype ++ "/" ++ owner_name,
          body := some (Json.obj [("rdata", wrapRdata rdata), ("profile", p)]) }) ∧
    (∀ zone_name rtype owner_name rdata profile,
      (edit_rrset_rdata zone_name rtype owner_name rdata profile).method = Method.patch ∨
      (edit_rrset_rdata zone_name rtype owner_name rdata profile).method = Method.put) := by
  refine ⟨fun _ _ _ _ => rfl, ?_, ?_, ?_⟩
  · intro zone_name rtype owner_name rdata p h
    simp [edit_rrset_rdata, h]
  · intro zone_name rtype owner_name rdata p h
    simp [edit_rrset_rdata, h]
  · intro zone_name rtype owner_name rdata profile
    rcases profile with _ | p
    · exact Or.inl rfl
    · rcases h : jsonTruthy p
      · exact Or.inl (by simp [edit_rrset_rdata, h])
      · exact Or.inr (by simp [edit_rrset_rdata, h])

/-- Closed instance of `edit_rrset_rdata_request`, discharging the
truthiness hypotheses at a falsy profile (`None`) and at a truthy one. -/
theorem edit_rrset_rdata_request_witness :
    edit_rrset_rdata "z.com" "A" "www" (Json.str "5.6.7.8") none =
      { method := Method.patch, path := "/v1/zones/z.com/rrsets/A/www",
        body := some (Json.obj [("rdata", wrapRdata (Json.str "5.6.7.8"))]) } ∧
    edit_rrset_rdata "z.com" "A" "www" (Json.str "5.6.7.8")
        (some (Json.obj [("order", Json.str "FIXED")])) =
      { method := Method.put, path := "/v1/zones/z.com/rrsets/A/www",
        body := some (Json.obj [("rdata", wrapRdata (Json.str "5.6.7.8")),
          ("profile", Json.obj [("order", Json.str "FIXED")])]) } :=
  ⟨edit_rrset_rdata_request.1 "z.com" "A" "www" (Json.str "5.6.7.8"),
   edit_rrset_rdata_request.2.2.1 "z.com" "A" "www" (Json.str "5.6.7.8")
     (Json.obj [("order", Json.str "FIXED")]) rfl⟩

/-- C2: constructing `RestApiClient` with `use_token=False` (the default)
and a missing or empty password raises the construction-time misuse error
(the spec's `ValidationError`, realised in the source as
`ValueError("Password is required when providing a username.")`) with an
empty effect trace — before any `RestApiConnection` is created or `auth` is
invoked, hence before any network call. -/
theorem init_missing_password :
    ∀ bu pr, strOptFalsy pr = true →
      RestApiClient_init bu pr false =
        ([], Except.error "Password is required when providing a username.") := by
  intro bu pr h
  rcases pr with _ | s
  · rfl
  · simp only [strOptFalsy] at h
    simp [RestApiClient_init, h]

/-- Closed instance of `init_missing_password` at `pr = None`. -/
theorem init_missing_password_witness :
    RestApiClient_init "user" none false =
      ([], Except.error "Password is required when providing a username.") :=
  init_missing_password "user" none rfl

/-- C10: `edit_secondary_name_server(zone_name, primary, backup,
second_backup)` PATCHes `/v1/zones/{zone_name}` with a body whose
`nameServerIpList` contains the key `nameServerIp{k}` exactly for the
positions `k ∈ {1,2,3}` whose argument is present, each mapped to
`{"ip": <argument>}`; the numbering follows the argument's position, never
the count of provided values, so the key list is exactly the position-named
keys of the present arguments. -/
theorem edit_secondary_name_server_request :
    ∀ zone_name primary backup second_backup,
      edit_secondary_name_server zone_name primary backup second_backup =
        { method := Method.patch, path := "/v1/zones/" ++ zone_name,
          body := some (Json.obj [
            ("secondaryCreateInfo", Json.obj [
              ("primaryNameServers", Json.obj [
                ("nameServerIpList",
                  Json.obj (nameServerIpList primary backup second_backup))])])]) } ∧
      List.lookup "nameServerIp1" (nameServerIpList primary backup second_backup) =
        primary.map (fun ip => Json.obj [("ip", Json.str ip)]) ∧
      List.lookup "nameServerIp2" (nameServerIpList primary backup second_backup) =
        backup.map (fun ip => Json.obj [("ip", Json.str ip)]) ∧
      List.lookup "nameServerIp3" (nameServerIpList primary backup second_backup) =
        second_backup.map (fun ip => Json.obj [("ip", Json.str ip)]) ∧
      (nameServerIpList primary backup second_backup).map Prod.fst =
        (primary.map (fun _ => "nameServerIp1")).toList ++
        (backup.map (fun _ => "nameServerIp2")).toList ++
        (second_backup.map (fun _ => "nameServerIp3")).toList := by
  intro zone_name primary backup second_backup
  have e1 : "nameServerIp" ++ toString (1 : Nat) = "nameServerIp1" := rfl
  have e2 : "nameServerIp" ++ toString (2 : Nat) = "nameServerIp2" := rfl
  have e3 : "nameServerIp" ++ toString (3 : Nat) = "nameServerIp3" := rfl
  rcases primary with _ | ip1 <;> rcases backup with _ | ip2 <;>
    rcases second_backup with _ | ip3 <;>
    refine ⟨rfl, ?_, ?_, ?_, ?_⟩ <;>
    simp [nameServerIpList, List.enum, List.enumFrom, List.lookup, e1, e2, e3]

/-- Setting a key that is not yet present appends the pair at the end of
the dict (Python dicts keep insertion order). -/
theorem dictSet_of_not_mem (d : ParamDict) (k v : String)
    (h : k ∉ d.map Prod.fst) : dictSet d k v = d ++ [(k, v)] := by
  induction d with
  | nil => rfl
  | cons hd tl ih =>
      obtain ⟨k', v'⟩ := hd
      simp only [List.map_cons, List.mem_cons, not_or] at h
      have hne : ¬ (k' = k) := fun hk => h.1 hk.symm
      simp only [dictSet, if_neg hne, List.cons_append, List.cons.injEq, true_and]
      exact ih h.2

/-- C8: every list endpoint (`get_zones`, `get_zones_of_account`,
`get_zones_v3`, `get_rrsets`, `get_rrsets_by_type`,
`get_rrsets_by_type_owner`) called with a non-empty search mapping `q`
sends exactly the keyword arguments unchanged plus a final key `'q'` whose
value is the space-joined `"key:value"` rendering of `q` in mapping order;
with `q` absent (`None`) or empty, the parameters sent are exactly the
keyword arguments, with no `'q'` key added.  The hypothesis that `'q'` is
not a keyword-argument key always holds at the call sites, since `q` is a
named parameter of each Python method and can never appear in `**kwargs`. -/
theorem list_endpoint_params :
    ∀ (q : List (String × String)) (kwargs : ParamDict),
      q ≠ [] → "q" ∉ kwargs.map Prod.fst →
      build_params (some q) kwargs =
        kwargs ++ [("q", String.intercalate " " (q.map (fun kv => kv.1 ++ ":" ++ kv.2)))] ∧
      build_params none kwargs = kwargs ∧
      build_params (some []) kwargs = kwargs ∧
      (∀ account_name zone_name rtype owner_name,
        (get_zones (some q) kwargs).params = some (build_params (some q) kwargs) ∧
        (get_zones none kwargs).params = some kwargs ∧
        (get_zones_of_account account_name (some q) kwargs).params =
          some (build_params (some q) kwargs) ∧
        (get_zones_of_account account_name none kwargs).params = some kwargs ∧
        (get_zones_v3 (some q) kwargs).params = some (build_params (some q) kwargs) ∧
        (get_zones_v3 none kwargs).params = some kwargs ∧
        (get_rrsets zone_name (some q) kwargs).params = some (build_params (some q) kwargs) ∧
        (get_rrsets zone_name none kwargs).params = some kwargs ∧
        (get_rrsets_by_type zone_name rtype (some q) kwargs).params =
          some (build_params (some q) kwargs) ∧
        (get_rrsets_by_type zone_name rtype none kwargs).params = some kwargs ∧
        (get_rrsets_by_type_owner zone_name rtype owner_name (some q) kwargs).params =
          some (build_params (some q) kwargs) ∧
        (get_rrsets_by_type_owner zone_name rtype owner_name none kwargs).params =
          some kwargs) := by
  intro q kwargs hq hmem
  have hne : q.isEmpty = false := by
    cases q with
    | nil => exact absurd rfl hq
    | cons _ _ => rfl
  have hbuild : build_params (some q) kwargs =
      kwargs ++ [("q", String.intercalate " " (q.map (fun kv => kv.1 ++ ":" ++ kv.2)))] := by
    simp only [build_params, hne, Bool.false_eq_true, if_false]
    exact dictSet_of_not_mem kwargs "q" _ hmem
  refine ⟨hbuild, rfl, rfl, ?_⟩
  intro account_name zone_name rtype owner_name
  exact ⟨rfl, rfl, rfl, rfl, rfl, rfl, rfl, rfl, rfl, rfl, rfl, rfl⟩

/-- Closed instance of `list_endpoint_params` at
`q = {"name": "foo", "zone_type": "PRIMARY"}` and
`kwargs = {"sort": "NAME", "limit": "10"}`. -/
theorem list_endpoint_params_witness :
    build_params (some [("name", "foo"), ("zone_type", "PRIMARY")])
        [("sort", "NAME"), ("limit", "10")] =
      [("sort", "NAME"), ("limit", "10"), ("q", "name:foo zone_type:PRIMARY")] ∧
    (get_zones (some [("name", "foo"), ("zone_type", "PRIMARY")])
        [("sort", "NAME"), ("limit", "10")]).params =
      some (build_params (some [("name", "foo"), ("zone_type", "PRIMARY")])
        [("sort", "NAME"), ("limit", "10")]) := by
  have h := list_endpoint_params [("name", "foo"), ("zone_type", "PRIMARY")]
    [("sort", "NAME"), ("limit", "10")] (by decide) (by decide)
  exact ⟨by rw [h.1]; rfl, (h.2.2.2 "a" "z" "A" "www").1⟩

/-- Reading a reference below the old heap length is unaffected by an
allocation. -/
theorem readDict_alloc (s : Store) (d : ParamDict) (r : Nat)
    (h : r < s.heap.length) : readDict (allocDict s d).1 r = readDict s r := by
  simp only [readDict, allocDict, List.getD_eq_getElem?_getD]
  rw [List.getElem?_append_left h]

/-- Reading the freshly allocated reference yields the allocated dict. -/
theorem readDict_alloc_new (s : Store) (d : ParamDict) :
    readDict (allocDict s d).1 (allocDict s d).2 = d := by
  simp only [readDict, allocDict, List.getD_eq_getElem?_getD]
  rw [List.getElem?_concat_length]
  rfl

/-- Writing one reference leaves every other reference unchanged. -/
theorem readDict_write_ne (s : Store) (r r' : Nat) (d : ParamDict)
    (h : r' ≠ r) : readDict (writeDict s r d) r' = readDict s r' := by
  simp only [readDict, writeDict, List.getD_eq_getElem?_getD]
  rw [List.getElem?_set_ne (fun he => h he.symm)]

/-- Reading back a written reference that is in range yields the written
dict. -/
theorem readDict_write_self (s : Store) (r : Nat) (d : ParamDict)
    (h : r < s.heap.length) : readDict (writeDict s r d) r = d := by
  simp only [readDict, writeDict, List.getD_eq_getElem?_getD]
  rw [List.getElem?_set_self' ]
  simp [List.getElem?_eq_getElem h]

/-- C9: `build_params` mutates neither of its arguments.  In the heap model
of Python dicts, running `build_params` on references to the caller's `q`
and `args` dicts leaves the dicts behind both references unchanged, and the
returned reference is a fresh one (distinct from both), holding exactly the
value computed by the pure `build_params` — `args` with the `'q'` entry
possibly added. -/
theorem build_params_st_frame :
    ∀ (s : Store) (qr ar : Nat), qr < s.heap.length → ar < s.heap.length →
      readDict (build_params_st s (some qr) ar).1 qr = readDict s qr ∧
      readDict (build_params_st s (some qr) ar).1 ar = readDict s ar ∧
      (build_params_st s (some qr) ar).2 ≠ qr ∧
      (build_params_st s (some qr) ar).2 ≠ ar ∧
      readDict (build_params_st s (some qr) ar).1 (build_params_st s (some qr) ar).2 =
        build_params (some (readDict s qr)) (readDict s ar) := by
  intro s qr ar hq ha
  have hlen : (allocDict s (readDict s ar)).1.heap.length = s.heap.length + 1 := by
    simp [allocDict]
  have hqr : readDict (allocDict s (readDict s ar)).1 qr = readDict s qr :=
    readDict_alloc s _ qr hq
  have har : readDict (allocDict s (readDict s ar)).1 ar = readDict s ar :=
    readDict_alloc s _ ar ha
  have hnew : readDict (allocDict s (readDict s ar)).1 s.heap.length = readDict s ar :=
    readDict_alloc_new s (readDict s ar)
  have hdef : build_params_st s (some qr) ar =
      (if (readDict (allocDict s (readDict s ar)).1 qr).isEmpty
       then ((allocDict s (readDict s ar)).1, s.heap.length)
       else (writeDict (allocDict s (readDict s ar)).1 s.heap.length
              (dictSet (readDict (allocDict s (readDict s ar)).1 s.heap.length) "q"
                (joinQ (readDict (allocDict s (readDict s ar)).1 qr))),
             s.heap.length)) := rfl
  rw [hdef, hqr, hnew]
  by_cases hempty : (readDict s qr).isEmpty
  · simp only [hempty, if_true]
    refine ⟨hqr, har, by omega, by omega, ?_⟩
    rw [hnew]
    simp only [build_params, hempty, if_true]
  · simp only [hempty, Bool.false_eq_true, if_false]
    refine ⟨?_, ?_, by omega, by omega, ?_⟩
    · rw [readDict_write_ne _ _ _ _ (by omega), hqr]
    · rw [readDict_write_ne _ _ _ _ (by omega), har]
    · rw [readDict_write_self _ _ _ (by omega)]
      simp only [build_params, hempty, Bool.false_eq_true, if_false]

/-- Closed instance of `build_params_st_frame` on a concrete two-dict
store. -/
theorem build_params_st_frame_witness :
    readDict (build_params_st ⟨[[("name", "foo")], [("limit", "5")]]⟩ (some 0) 1).1 0 =
      [("name", "foo")] ∧
    readDict (build_params_st ⟨[[("name", "foo")], [("limit", "5")]]⟩ (some 0) 1).1 1 =
      [("limit", "5")] ∧
    (build_params_st ⟨[[("name", "foo")], [("limit", "5")]]⟩ (some 0) 1).2 ≠ 0 ∧
    (build_params_st ⟨[[("name", "foo")], [("limit", "5")]]⟩ (some 0) 1).2 ≠ 1 := by
  have h := build_params_st_frame ⟨[[("name", "foo")], [("limit", "5")]]⟩ 0 1
    (by decide) (by decide)
  exact ⟨h.1, h.2.1, h.2.2.1, h.2.2.2.1⟩

/-- If the first `n` polls (from attempt `k`) answer `IN_PROCESS` and the
`n`-th does not, the loop breaks at attempt `k + n` with the expected
trace, given enough fuel. -/
theorem pollLoop_breaks (env : TaskEnv) (tid : String) :
    ∀ n k fuel, (∀ j, j < n → env.taskStatus (k + j) = "IN_PROCESS") →
      env.taskStatus (k + n) ≠ "IN_PROCESS" → n < fuel →
      pollLoop env tid k fuel = (some (k + n), pollTraceExpected tid n) := by
  intro n
  induction n with
  | zero =>
      intro k fuel _ hbreak hfuel
      cases fuel with
      | zero => omega
      | succ f =>
          rw [Nat.add_zero] at hbreak
          simp only [pollLoop, ne_eq, hbreak, not_false_iff, if_true]
          rfl
  | succ m ih =>
      intro k fuel h hbreak hfuel
      cases fuel with
      | zero => omega
      | succ f =>
          have h0 : env.taskStatus k = "IN_PROCESS" := by
            have := h 0 (Nat.succ_pos m)
            rwa [Nat.add_zero] at this
          have ih' : pollLoop env tid (k + 1) f = (some (k + 1 + m), pollTraceExpected tid m) := by
            refine ih (k + 1) f (fun j hj => ?_) ?_ (by omega)
            · have := h (j + 1) (by omega)
              rwa [show k + (j + 1) = k + 1 + j by omega] at this
            · rwa [show k + 1 + m = k + (m + 1) by omega]
          simp only [pollLoop, ne_eq, h0, not_true_eq_false, if_false, ih']
          refine Prod.ext ?_ rfl
          simp only
          congr 1
          omega

/-- With every poll answering `IN_PROCESS` the loop never breaks, whatever
the fuel. -/
theorem pollLoop_never_breaks (env : TaskEnv) (tid : String)
    (hall : ∀ k, env.taskStatus k = "IN_PROCESS") :
    ∀ fuel k, (pollLoop env tid k fuel).1 = none := by
  intro fuel
  induction fuel with
  | zero => intro k; rfl
  | succ f ih =>
      intro k
      simp only [pollLoop, ne_eq, hall k, not_true_eq_false, if_false]
      exact ih (k + 1)

/-- If some poll within the fuel bound answers something other than
`IN_PROCESS`, the loop breaks. -/
theorem pollLoop_breaks_of_done (env : TaskEnv) (tid : String) :
    ∀ fuel k n, n < fuel → env.taskStatus (k + n) ≠ "IN_PROCESS" →
      ((pollLoop env tid k fuel).1).isSome := by
  intro fuel
  induction fuel with
  | zero => intro k n hn; omega
  | succ f ih =>
      intro k n hn hbreak
      by_cases h0 : env.taskStatus k = "IN_PROCESS"
      · cases n with
        | zero =>
            rw [Nat.add_zero] at hbreak
            exact absurd h0 hbreak
        | succ m =>
            simp only [pollLoop, ne_eq, h0, not_true_eq_false, if_false]
            refine ih (k + 1) m (by omega) ?_
            rwa [show k + 1 + m = k + (m + 1) by omega]
      · simp only [pollLoop, ne_eq, h0, not_false_iff, if_true, Option.isSome_some]

/-- Every sleep the loop performs lasts exactly 1 second (`time.sleep(1)`,
no backoff). -/
theorem pollLoop_sleep_one (env : TaskEnv) (tid : String) :
    ∀ fuel k d, WireAct.sleep d ∈ (pollLoop env tid k fuel).2 → d = 1 := by
  intro fuel
  induction fuel with
  | zero => intro k d h; simp [pollLoop] at h
  | succ f ih =>
      intro k d h
      by_cases h0 : env.taskStatus k = "IN_PROCESS"
      · simp only [pollLoop, ne_eq, h0, not_true_eq_false, if_false,
          List.mem_cons] at h
        rcases h with h | h | h
        · exact absurd h (by simp)
        · simpa using h
        · exact ih (k + 1) d h
      · simp only [pollLoop, ne_eq, h0, not_false_iff, if_true,
          List.mem_singleton] at h
        exact absurd h (by simp)

/-- Two environments agreeing on the poll statuses drive the loop
identically (the loop never reads the other fields). -/
theorem pollLoop_congr (env env' : TaskEnv) (h : env.taskStatus = env'.taskStatus)
    (tid : String) : ∀ fuel k, pollLoop env tid k fuel = pollLoop env' tid k fuel := by
  intro fuel
  induction fuel with
  | zero => intro k; rfl
  | succ f ih =>
      intro k
      simp only [pollLoop, h, ih (k + 1)]

/-- C3: `export_zone(zone_name)` first POSTs `/v3/zones/export`; with the
response carrying task id `tid`, it polls `GET /v1/tasks/{tid}` until the
returned status code leaves `IN_PROCESS` (here: `n` polls answer
`IN_PROCESS` and the next one does not), then issues
`GET /v1/tasks/{tid}/result` followed by `DELETE /v1/tasks/{tid}`, in that
order, and returns the body of the result call; the DELETE response is
discarded — the returned value does not depend on it. -/
theorem export_zone_protocol :
    ∀ (env : TaskEnv) (zone_name tid : String) (n fuel : Nat),
      pyGet env.exportResponse "task_id" = some (Json.str tid) →
      (∀ j, j < n → env.taskStatus j = "IN_PROCESS") →
      env.taskStatus n ≠ "IN_PROCESS" →
      n < fuel →
      export_zone env zone_name fuel =
        (some env.taskResult,
          WireAct.post "/v3/zones/export"
              (Json.str (jsonDumps (Json.obj [("zoneNames", Json.arr [Json.str zone_name])]))) ::
            (pollTraceExpected tid n ++
              [WireAct.get ("/v1/tasks/" ++ tid ++ "/result"),
               WireAct.delete ("/v1/tasks/" ++ tid)])) ∧
      (∀ d : Json,
        export_zone { env with deleteResponse := d } zone_name fuel =
          export_zone env zone_name fuel) := by
  intro env zone_name tid n fuel htid hpoll hbreak hfuel
  constructor
  · have hloop : pollLoop env (pyStrOpt (pyGet env.exportResponse "task_id")) 0 fuel =
        (some n, pollTraceExpected tid n) := by
      rw [htid]
      have := pollLoop_breaks env tid n 0 fuel
        (fun j hj => by simpa using hpoll j hj) (by simpa using hbreak) hfuel
      simpa using this
    simp only [export_zone, hloop]
    rw [htid]
    rfl
  · intro d
    simp only [export_zone]
    rw [pollLoop_congr { env with deleteResponse := d } env rfl _ fuel 0]

/-- Closed instance of `export_zone_protocol`: the task id is `42`, two
polls answer `IN_PROCESS`, the third answers `COMPLETE`. -/
theorem export_zone_protocol_witness :
    export_zone
        { exportResponse := Json.obj [("task_id", Json.str "42")],
          taskStatus := fun k => if k < 2 then "IN_PROCESS" else "COMPLETE",
          taskResult := Json.str "zonefile",
          deleteResponse := Json.null } "example.com." 3 =
      (some (Json.str "zonefile"),
        WireAct.post "/v3/zones/export"
            (Json.str (jsonDumps (Json.obj [("zoneNames", Json.arr [Json.str "example.com."])]))) ::
          (pollTraceExpected "42" 2 ++
            [WireAct.get ("/v1/tasks/" ++ "42" ++ "/result"),
             WireAct.delete ("/v1/tasks/" ++ "42")])) :=
  (export_zone_protocol
    { exportResponse := Json.obj [("task_id", Json.str "42")],
      taskStatus := fun k => if k < 2 then "IN_PROCESS" else "COMPLETE",
      taskResult := Json.str "zonefile",
      deleteResponse := Json.null } "example.com." "42" 2 3 rfl
    (fun j hj => by
      simp only []
      rw [if_pos hj]) (by decide) (by decide)).1

/-- C4: the polling loop of `export_zone` sleeps a fixed 1-second interval
between polls (no backoff) and has no maximum-attempts bound:
(1) if every poll answers `IN_PROCESS`, the loop never breaks — for every
fuel bound the run is still unfinished, i.e. the function diverges;
(2) if some poll answers a status other than `IN_PROCESS`, the run
terminates once the fuel covers that poll, returning a result;
(3) every sleep in any run's trace lasts exactly 1 second. -/
theorem export_zone_termination :
    (∀ (env : TaskEnv) (zone_name : String) (fuel : Nat),
      (∀ k, env.taskStatus k = "IN_PROCESS") →
      (export_zone env zone_name fuel).1 = none) ∧
    (∀ (env : TaskEnv) (zone_name : String) (n : Nat),
      env.taskStatus n ≠ "IN_PROCESS" →
      ∀ fuel, n < fuel → (export_zone env zone_name fuel).1 = some env.taskResult) ∧
    (∀ (env : TaskEnv) (zone_name : String) (fuel : Nat) (d : Nat),
      WireAct.sleep d ∈ (export_zone env zone_name fuel).2 → d = 1) := by
  refine ⟨?_, ?_, ?_⟩
  · intro env zone_name fuel hall
    have hloop := pollLoop_never_breaks env
      (pyStrOpt (pyGet env.exportResponse "task_id")) hall fuel 0
    simp only [export_zone]
    rcases hres : pollLoop env (pyStrOpt (pyGet env.exportResponse "task_id")) 0 fuel
      with ⟨r, tr⟩
    rw [hres] at hloop
    simp only at hloop
    subst hloop
    rfl
  · intro env zone_name n hbreak fuel hfuel
    have hsome := pollLoop_breaks_of_done env
      (pyStrOpt (pyGet env.exportResponse "task_id")) fuel 0 n hfuel
      (by simpa using hbreak)
    simp only [export_zone]
    rcases hres : pollLoop env (pyStrOpt (pyGet env.exportResponse "task_id")) 0 fuel
      with ⟨r, tr⟩
    rw [hres] at hsome
    rcases r with _ | i
    · simp at hsome
    · rfl
  · intro env zone_name fuel d hmem
    have hps := pollLoop_sleep_one env
      (pyStrOpt (pyGet env.exportResponse "task_id")) fuel 0 d
    simp only [export_zone] at hmem
    rcases hres : pollLoop env (pyStrOpt (pyGet env.exportResponse "task_id")) 0 fuel
      with ⟨r, tr⟩
    rw [hres] at hmem hps
    rcases r with _ | i
    · rcases List.mem_cons.mp hmem with h | h
      · exact absurd h (by simp)
      · exact hps h
    · rcases List.mem_cons.mp hmem with h | h
      · exact absurd h (by simp)
      · rcases List.mem_append.mp h with h2 | h2
        · exact hps h2
        · simp at h2

/-- Closed instance of `export_zone_termination`: with every poll answering
`IN_PROCESS` no fuel suffices; with the first poll answering `COMPLETE`
fuel 1 terminates with the task result. -/
theorem export_zone_termination_witness :
    (export_zone
        { exportResponse := Json.obj [("task_id", Json.str "7")],
          taskStatus := fun _ => "IN_PROCESS",
          taskResult := Json.str "r", deleteResponse := Json.null } "z" 5).1 = none ∧
    (export_zone
        { exportResponse := Json.obj [("task_id", Json.str "7")],
          taskStatus := fun _ => "COMPLETE",
          taskResult := Json.str "r", deleteResponse := Json.null } "z" 1).1 =
      some (Json.str "r") :=
  ⟨export_zone_termination.1
      { exportResponse := Json.obj [("task_id", Json.str "7")],
        taskStatus := fun _ => "IN_PROCESS",
        taskResult := Json.str "r", deleteResponse := Json.null } "z" 5 (fun _ => rfl),
   export_zone_termination.2.1
      { exportResponse := Json.obj [("task_id", Json.str "7")],
        taskStatus := fun _ => "COMPLETE",
        taskResult := Json.str "r", deleteResponse := Json.null } "z" 0 (by decide) 1
      (by decide)⟩

/-- C1 (transport modelled from the spec, `connection.py` not being in this
snapshot): when the stored access token has just expired — the first
attempt answers 401 — and a refresh token is present, then
(i) if the refresh exchange succeeds, the wire trace is the failed original
attempt followed by exactly two further HTTP calls, the refresh exchange
and the original request retried exactly once with the new token, and the
stored access token becomes the refreshed one (so it changes whenever the
refresh yields a fresh token);
(ii) if the refresh call itself fails, the client surfaces `AuthError` and
makes no further retry: the trace ends at the refresh exchange. -/
theorem transport_refresh_retry :
    (∀ (env : TransportEnv) (st : ConnState) (rt newTok : String),
      st.refresh_token = some rt →
      env.firstStatus = 401 →
      env.refreshOutcome = some newTok →
      transport_request env st =
        (classifyStatus env.retryStatus, { st with access_token := newTok },
          [TransportCall.original st.access_token, TransportCall.refreshExchange rt,
           TransportCall.original newTok]) ∧
      ((transport_request env st).2.2).drop 1 =
        [TransportCall.refreshExchange rt, TransportCall.original newTok] ∧
      (transport_request env st).2.1.access_token = newTok ∧
      (newTok ≠ st.access_token →
        (transport_request env st).2.1.access_token ≠ st.access_token)) ∧
    (∀ (env : TransportEnv) (st : ConnState) (rt : String),
      st.refresh_token = some rt →
      env.firstStatus = 401 →
      env.refreshOutcome = none →
      transport_request env st =
        (Outcome.authError, st,
          [TransportCall.original st.access_token, TransportCall.refreshExchange rt])) := by
  constructor
  · intro env st rt newTok hrt h401 href
    have hreq : transport_request env st =
        (classifyStatus env.retryStatus, { st with access_token := newTok },
          [TransportCall.original st.access_token, TransportCall.refreshExchange rt,
           TransportCall.original newTok]) := by
      simp only [transport_request, h401, if_true, hrt, href]
    refine ⟨hreq, ?_, ?_, ?_⟩
    · rw [hreq]
      rfl
    · rw [hreq]
    · intro hne
      rw [hreq]
      exact hne
  · intro env st rt hrt h401 href
    simp only [transport_request, h401, if_true, hrt, href]

/-- Closed instance of `transport_refresh_retry`: first attempt 401,
refresh token `R`, successful refresh to a different token `tok2`, retry
answering 200; and the refresh-failure case. -/
theorem transport_refresh_retry_witness :
    transport_request
        { firstStatus := 401, refreshOutcome := some "tok2", retryStatus := 200 }
        { access_token := "tok1", refresh_token := some "R" } =
      (Outcome.success 200, { access_token := "tok2", refresh_token := some "R" },
        [TransportCall.original "tok1", TransportCall.refreshExchange "R",
         TransportCall.original "tok2"]) ∧
    transport_request
        { firstStatus := 401, refreshOutcome := none, retryStatus := 200 }
        { access_token := "tok1", refresh_token := some "R" } =
      (Outcome.authError, { access_token := "tok1", refresh_token := some "R" },
        [TransportCall.original "tok1", TransportCall.refreshExchange "R"]) := by
  constructor
  · have h := (transport_refresh_retry.1
      { firstStatus := 401, refreshOutcome := some "tok2", retryStatus := 200 }
      { access_token := "tok1", refresh_token := some "R" } "R" "tok2" rfl rfl rfl).1
    rw [h]
    rfl
  · exact transport_refresh_retry.2
      { firstStatus := 401, refreshOutcome := none, retryStatus := 200 }
      { access_token := "tok1", refresh_token := some "R" } "R" rfl rfl rfl
